import Mathlib

/-!
A verification development for the chunked transcription/summarization
pipeline in `video_trans_sum.py`.  The Python source is shallowly embedded:
pure computations become Lean functions, exception-raising code returns
`Except`/`Option`, filesystem and network effects are made explicit as event
lists and oracle parameters.  All definitions follow the structure of
`transcribe_and_summarize_video` and its inner helper functions.
-/

/-! ## String utilities

`pySplit` models Python's `str.split(sep)` for a non-empty separator:
a left-to-right scan cutting at each leftmost non-overlapping occurrence
of `sep`.  The recursion is fuelled by the length of the scanned string,
which the scan never exceeds, so the fuel never runs out.
-/

/-- `listStartsWith p l` is true when `p` is an initial segment of `l`. -/
def listStartsWith : List Char → List Char → Bool
  | [], _ => true
  | _ :: _, [] => false
  | a :: as, b :: bs => a = b && listStartsWith as bs

/-- Fuelled worker for `pySplit`; `cur` holds the current field reversed. -/
def pySplitFuel (sep : List Char) : Nat → List Char → List Char → List (List Char)
  | 0, cur, s => [cur.reverse ++ s]
  | _ + 1, cur, [] => [cur.reverse]
  | fuel + 1, cur, c :: rest =>
    if listStartsWith sep (c :: rest) then
      cur.reverse :: pySplitFuel sep fuel [] (List.drop (sep.length - 1) rest)
    else
      pySplitFuel sep fuel (c :: cur) rest

/-- Python `s.split(sep)` for a non-empty separator `sep`. -/
def pySplit (sep s : String) : List String :=
  (pySplitFuel sep.toList (s.toList.length + 1) [] s.toList).map String.mk

/-- Value of a list of decimal digit characters. -/
def digitsVal (cs : List Char) : Nat :=
  cs.foldl (fun acc c => 10 * acc + (c.toNat - 48)) 0

/-- Parse a non-empty all-digit character list; `none` otherwise. -/
def parseDigits (cs : List Char) : Option Nat :=
  if cs ≠ [] ∧ cs.all (·.isDigit) then some (digitsVal cs) else none

/-- Python `int(s)` on the strings this pipeline feeds it: an optional
sign followed by decimal digits; any other shape raises `ValueError`,
modelled as `none`.  (Python additionally tolerates surrounding
whitespace and inner underscores; no claim exercises those forms.) -/
def pyParseInt (s : String) : Option Int :=
  match s.toList with
  | [] => none
  | c :: cs =>
    if c = '-' then (parseDigits cs).map (fun n => -(n : Int))
    else if c = '+' then (parseDigits cs).map (fun n => (n : Int))
    else (parseDigits (c :: cs)).map (fun n => (n : Int))

/-! ## ChunkResult and the Transcript Assembler

Source: `transcribe_and_summarize_video`, STEP 4 (lines 316-330), and the
`chunk_result` dict built in `process_audio_chunk` (lines 238-243).
-/

/-- The dict built by `process_audio_chunk` for one audio chunk. -/
structure ChunkResult where
  chunk_id : String
  file_name : String
  transcript : Option String
  error : Option String
deriving DecidableEq, Repr

/-- The sort key of line 320:
`int(x['chunk_id'].split('_chunk_')[1]) if '_chunk_' in x['chunk_id'] else 0`.
`none` models the `ValueError` raised by `int` on a non-numeric segment.
A `chunk_id` without the delimiter splits into a single part and keys as 0. -/
def sortKey? (chunk_id : String) : Option Int :=
  match pySplit "_chunk_" chunk_id with
  | _ :: second :: _ => pyParseInt second
  | _ => some 0

/-- The numeric key of a `ChunkResult` whose `chunk_id` parses (the
default is never consulted on the parseable ids the theorems assume). -/
def keyOf (c : ChunkResult) : Int :=
  (sortKey? c.chunk_id).getD 0

/-- The filter of line 324: `chunk['transcript']` is kept only when it is
truthy, i.e. neither `None` nor the empty string. -/
def keptTranscript (c : ChunkResult) : Option String :=
  match c.transcript with
  | some s => if s = "" then none else some s
  | none => none

/-- `sorted(chunks_results, key=...)` of line 319: Python's sort is stable,
as is insertion sort with a `≤`-shaped relation. -/
def sortChunks (results : List ChunkResult) : List ChunkResult :=
  List.insertionSort (fun a b => keyOf a ≤ keyOf b) results

/-- Lines 319-324: sort by the parsed chunk index and space-join the
truthy transcripts.  If any key fails to parse, the `ValueError` is caught
by the surrounding `try` and the call returns the merging-failure error. -/
def assembleTranscript (results : List ChunkResult) : Except String String :=
  if results.all (fun c => (sortKey? c.chunk_id).isSome) then
    Except.ok (String.intercalate " " ((sortChunks results).filterMap keptTranscript))
  else
    Except.error "Transcript merging failed: invalid chunk id"

/-- Lines 316-330 in full: merge, then fail with the no-transcript error
when the joined transcript is empty (line 326). -/
def mergeStep (results : List ChunkResult) : Except String String :=
  match assembleTranscript results with
  | Except.error e => Except.error e
  | Except.ok t =>
    if t = "" then Except.error "No transcript was generated from any audio chunk"
    else Except.ok t

/-- `chunk_id = os.path.splitext(file_name)[0]` for the chunk file
`f"{video_name}_chunk_{i}.wav"` (lines 207 and 228-229). -/
def chunkIdOf (videoName : String) (i : Nat) : String :=
  videoName ++ "_chunk_" ++ toString i

/-! ## Chunk Splitter

Source: STEP 2 of `transcribe_and_summarize_video` (lines 190-217).
`for i, start in enumerate(range(0, len(audio), chunk_length_ms))` iterates
the pairs `(i, i * step)` for `i * step < len(audio)`; `range(0, stop, step)`
has exactly `(stop + step - 1) / step` elements for `step > 0`.  The slice
`audio[start:start + step]` of a `len`-millisecond segment lasts
`min step (len - start)` milliseconds.
-/

/-- One exported chunk file: its enumeration index, its file name
`f"{video_name}_chunk_{i}.wav"` (line 207) and its duration. -/
structure AudioChunk where
  index : Nat
  fileName : String
  durationMs : Nat
deriving DecidableEq, Repr

/-- Line 207: `f"{video_name}_chunk_{i}.wav"`. -/
def chunkFileName (videoName : String) (i : Nat) : String :=
  videoName ++ "_chunk_" ++ toString i ++ ".wav"

/-- Lines 198-211: cut the `lenMs`-millisecond audio into windows of
`chunk_length_sec * 1000` milliseconds. -/
def splitAudioChunks (videoName : String) (lenMs chunkLengthSec : Nat) : List AudioChunk :=
  let step := chunkLengthSec * 1000
  (List.range ((lenMs + step - 1) / step)).map
    (fun i =>
      { index := i
        fileName := chunkFileName videoName i
        durationMs := min step (lenMs - i * step) })

/-- Lines 198-214: the splitting step, failing with the empty-audio error
of line 214 when no chunks were produced. -/
def splitAudioStep (videoName : String) (lenMs chunkLengthSec : Nat) :
    Except String (List AudioChunk) :=
  let cs := splitAudioChunks videoName lenMs chunkLengthSec
  if cs.isEmpty then Except.error "Failed to split audio into chunks" else Except.ok cs

/-! ## Transcription Client

Source: `audio_to_text_single_call` (lines 251-280) and
`transcribe_with_openai_whisper` (lines 282-301).  The HTTP call is an
oracle (`PostOutcome`); the ambient `os.getenv('OPENAI_API_KEY')` is the
`env : Option String` parameter; file exports, transcription calls and
deletions are recorded as `FileEvent`s.  The float divisions of line 258
are modelled exactly over `ℚ`.
-/

/-- The service's JSON response body: its `error` and `text` fields. -/
structure WhisperResp where
  error : Option String
  text : Option String
deriving DecidableEq, Repr

/-- Outcome of one `requests.post` to the transcription endpoint:
either the call (or `.json()`) raised, or a decoded body came back. -/
inductive PostOutcome where
  | raise (msg : String)
  | respond (r : WhisperResp)
deriving DecidableEq, Repr

/-- Lines 282-301.  With no key in the environment the function returns
the error dict paired with `''` (line 288) — it does not raise.  An
`error` key in the body also returns the pair with `''` (line 298).  A
body with neither `error` nor `text` raises `KeyError` at line 300,
modelled as `Except.error`. -/
def transcribe_with_openai_whisper (env : Option String) (post : PostOutcome) :
    Except String (WhisperResp × String) :=
  match env with
  | none =>
    Except.ok ({ error := some "OpenAI API key not found in environment variables",
                 text := none }, "")
  | some _ =>
    match post with
    | PostOutcome.raise msg => Except.error msg
    | PostOutcome.respond r =>
      if r.error.isSome then Except.ok (r, "")
      else
        match r.text with
        | some t => Except.ok (r, t)
        | none => Except.error "KeyError: text"

/-- The value returned by `audio_to_text_single_call`: either
`{'transcript': t}` or `{'error': e}`. -/
inductive ChunkContent where
  | transcript (t : String)
  | error (e : String)
deriving DecidableEq, Repr

/-- Observable per-chunk file/network actions of the client, in order. -/
inductive FileEvent where
  | exportSub (i : Nat)
  | whisperCall (i : Nat)
  | removeSub (i : Nat)
deriving DecidableEq, Repr

/-- Result of `audio_to_text_single_call` with its event trace. -/
structure SingleOut where
  content : ChunkContent
  events : List FileEvent
deriving DecidableEq, Repr

/-- `24 * 1024 * 1024`, the upload limit of line 257. -/
def uploadLimit : Nat := 24 * 1024 * 1024

/-- Line 258: `chunk_duration_ms = (24*1024*1024) / (len(audio.raw_data) / len(audio))`,
real division modelled exactly over `ℚ`. -/
def subChunkLen (rawSize lenMs : Nat) : ℚ :=
  (uploadLimit : ℚ) / ((rawSize : ℚ) / (lenMs : ℚ))

/-- Line 259 via `pydub.utils.make_chunks`: `ceil(len(audio) / chunk_duration_ms)`
sub-windows. -/
def numSubChunks (rawSize lenMs : Nat) : Nat :=
  (Int.ceil ((lenMs : ℚ) / subChunkLen rawSize lenMs)).toNat

/-- Duration of sub-window `i`, the slice
`audio[i * chunk_duration_ms : (i+1) * chunk_duration_ms]` of a
`lenMs`-millisecond segment (pydub clamps both bounds to the length). -/
def subWindowLen (rawSize lenMs : Nat) (i : Nat) : ℚ :=
  min (((i : ℚ) + 1) * subChunkLen rawSize lenMs) (lenMs : ℚ)
    - min ((i : ℚ) * subChunkLen rawSize lenMs) (lenMs : ℚ)

/-- The loop of lines 261-269 over the remaining `k` sub-windows starting
at index `i`: export the window, transcribe it, append `transcript_v1 + " "`
to the accumulator, delete the window file; a raised exception stops the
loop and is caught by the enclosing `try` (line 279). -/
def subSplitLoop (env : Option String) (post : Nat → PostOutcome) :
    Nat → Nat → String → SingleOut
  | _, 0, acc => ⟨ChunkContent.transcript acc, []⟩
  | i, k + 1, acc =>
    match transcribe_with_openai_whisper env (post i) with
    | Except.error e =>
      ⟨ChunkContent.error e, [FileEvent.exportSub i, FileEvent.whisperCall i]⟩
    | Except.ok (_, t) =>
      let rest := subSplitLoop env post (i + 1) k (acc ++ t ++ " ")
      ⟨rest.content,
        FileEvent.exportSub i :: FileEvent.whisperCall i :: FileEvent.removeSub i :: rest.events⟩

/-- `audio_to_text_single_call` (lines 251-280): a chunk over the 24 MiB
raw-size limit is sub-split and its windows transcribed sequentially; a
chunk at or under the limit is transcribed in one call.  Every exception
is caught at line 279 and returned as `{'error': ...}` — the function
never raises. -/
def audio_to_text_single_call (env : Option String) (rawSize lenMs : Nat)
    (post : Nat → PostOutcome) : SingleOut :=
  if uploadLimit < rawSize then
    subSplitLoop env post 0 (numSubChunks rawSize lenMs) ""
  else
    match transcribe_with_openai_whisper env (post 0) with
    | Except.error e => ⟨ChunkContent.error e, [FileEvent.whisperCall 0]⟩
    | Except.ok (_, t) => ⟨ChunkContent.transcript t, [FileEvent.whisperCall 0]⟩

/-- `transcription_response.get('transcript', None)` (line 235). -/
def contentTranscript : ChunkContent → Option String
  | ChunkContent.transcript t => some t
  | ChunkContent.error _ => none

/-- `transcription_response.get('error', None)` (line 236). -/
def contentError : ChunkContent → Option String
  | ChunkContent.error e => some e
  | ChunkContent.transcript _ => none

/-- The `chunk_result` dict built by `process_audio_chunk` (lines 238-243). -/
def mkChunkResult (cid fn : String) (c : ChunkContent) : ChunkResult :=
  { chunk_id := cid, file_name := fn,
    transcript := contentTranscript c, error := contentError c }

/-- Transcript accumulated by the sub-split loop from window `i` over `k`
windows whose texts are `texts`: each text followed by one space. -/
def concatFrom (texts : Nat → String) : Nat → Nat → String → String
  | _, 0, acc => acc
  | i, k + 1, acc => concatFrom texts (i + 1) k (acc ++ texts i ++ " ")

/-- Event trace of a fully successful sub-split run from window `i` over
`k` windows: export, transcribe, delete — window by window. -/
def eventsFrom : Nat → Nat → List FileEvent
  | _, 0 => []
  | i, k + 1 =>
    FileEvent.exportSub i :: FileEvent.whisperCall i :: FileEvent.removeSub i :: eventsFrom (i + 1) k

/-! ## Summarizer

Source: lines 344-428.  The system and user prompts are the string
literals of lines 356-390 (the f-string's doubled braces denote literal
braces); `user_prompt` embeds `full_transcript` between the fixed template
text and a final newline.
-/

/-- One entry of the `messages` array of the chat payload (lines 395-398). -/
structure ChatMessage where
  role : String
  content : String
deriving DecidableEq, Repr

/-- The `system_prompt` literal of lines 356-361. -/
def systemPrompt : String :=
  "\n        You are a helpful assistant that summarizes legal call transcripts. Your job is to extract \n" ++
  "        the most important information and present it in a clear, structured JSON format. Focus only on \n" ++
  "        extracting key points and action items from the transcript. The transcript might contain some transcription errors.\n" ++
  "        These calls are being made from experts on behalf of Vakilsearch.com. Correct any mis-pronunciations of the name Vakilsearch.\n        "

/-- The fixed text of the `user_prompt` f-string (lines 362-390) before
the `{full_transcript}` interpolation point. -/
def userPromptPre : String :=
  "\nPlease summarize the following legal call transcript into a structured JSON format.\n\n" ++
  "Extract and organize the information into the following sections:\n\n" ++
  "1. **Key Points**: Provide 3-5 bullet points summarizing the most important details discussed.\n" ++
  "2. **Action Items**: For each action item, include:\n" ++
  "   - **Title**: A short title for the action item.\n" ++
  "   - **Task**: The specific task to be completed.\n" ++
  "   - **Description**: Additional details about the task.\n" ++
  "   - **Deadline**: The deadline, if mentioned.\n\n" ++
  "Format the response as a JSON object with the structure:\n\n" ++
  "\x7b\n  \"summary\": \x7b\n    \"key_points\": [\"<Point 1>\", \"<Point 2>\", \"<Point 3>\"],\n" ++
  "    \"action_items\": [\n" ++
  "      \x7b\"title\": \"<Action Item Title>\", \"task\": \"<Action Item 1>\", \"description\": \"<Description>\", \"deadline\": \"<Deadline (if applicable)>\"\x7d,\n" ++
  "      \x7b\"title\": \"<Action Item Title>\", \"task\": \"<Action Item 2>\", \"description\": \"<Description>\", \"deadline\": \"<Deadline (if applicable)>\"\x7d\n" ++
  "    ]\n  \x7d\n\x7d\n\n" ++
  "Return ONLY the JSON object with no additional text or explanation. Ensure it is properly formatted JSON.\n\n" ++
  "Here\x27s the transcript:\n"

/-- The full `user_prompt` for a given `full_transcript` (line 389 ends
the f-string with the interpolated transcript and a newline). -/
def userPrompt (fullTranscript : String) : String :=
  userPromptPre ++ fullTranscript ++ "\n"

/-- The chat-completion request body of lines 393-400. -/
structure ChatPayload where
  model : String
  messages : List ChatMessage
  temperature : ℚ
deriving DecidableEq, Repr

/-- `data` of lines 393-400: model `gpt-4o-mini`, the system and user
messages, temperature `0.3`. -/
def chatPayload (fullTranscript : String) : ChatPayload :=
  { model := "gpt-4o-mini"
    messages := [{ role := "system", content := systemPrompt },
                 { role := "user", content := userPrompt fullTranscript }]
    temperature := 3 / 10 }

/-! ## Pipeline tail

Source: lines 316-428 of `transcribe_and_summarize_video`, from the
collected `chunks_results` onward.  `env` is `os.getenv("OPENAI_API_KEY")`
(line 346), `chat` the outcome of the chat-completion request of lines
402-408 (an exception anywhere in that block — transport error, HTTP
error status via `raise_for_status`, missing `choices` key — is caught at
line 427), and `parse` the outcome of `json.loads` (line 412), abstract
in the parsed value type `J`.  Attempted filesystem cleanup (lines
415-420, best-effort) is recorded as `CleanupEvent`s.
-/

/-- Cleanup actions the pipeline could attempt before returning.
`rmtreeTempDir` — removal of the request's temp directory itself — is
listed so its absence from every trace can be stated. -/
inductive CleanupEvent where
  | rmtreeChunks
  | removeAudio
  | rmtreeTempDir
deriving DecidableEq, Repr

/-- Outcome of the chat-completion block: raised, or produced
`choices[0].message.content`. -/
inductive ChatOutcome where
  | raise (msg : String)
  | respond (content : String)
deriving DecidableEq, Repr

/-- The dictionary returned by the pipeline tail: a summary, a plain
`{"error": msg}`, or the parse failure `{"error": msg, "raw_summary": raw}`
of line 425. -/
inductive PipeResult (J : Type) where
  | summary (j : J)
  | err (msg : String)
  | parseErr (msg raw : String)
deriving DecidableEq, Repr

/-- What a call to the pipeline tail did: its returned dict, the number
of chat-completion requests issued, and the cleanup it attempted. -/
structure TailOut (J : Type) where
  result : PipeResult J
  chatCalls : Nat
  cleanup : List CleanupEvent
deriving DecidableEq, Repr

/-- Lines 316-428: merge the chunk transcripts; fetch the credential from
the ambient environment; issue the chat-completion request; parse the
returned text as JSON; clean up (chunks directory and canonical audio
file) only after a successful parse. -/
def pipelineTail {J : Type} (results : List ChunkResult) (env : Option String)
    (chat : ChatOutcome) (parse : String → Option J) : TailOut J :=
  match mergeStep results with
  | Except.error e => ⟨PipeResult.err e, 0, []⟩
  | Except.ok _ =>
    match env with
    | none => ⟨PipeResult.err "OpenAI API key not found in environment variables", 0, []⟩
    | some _ =>
      match chat with
      | ChatOutcome.raise msg => ⟨PipeResult.err ("Summarization failed: " ++ msg), 1, []⟩
      | ChatOutcome.respond content =>
        match parse content with
        | some j =>
          ⟨PipeResult.summary j, 1, [CleanupEvent.rmtreeChunks, CleanupEvent.removeAudio]⟩
        | none => ⟨PipeResult.parseErr "Failed to parse JSON summary" content, 1, []⟩

/-! ## Theorems -/

/-- Two permuted lists, one sorted by `keyOf` (weakly), the other strictly,
are equal: distinct keys leave only one sorted arrangement. -/
lemma sorted_eq_of_perm_of_strict {l₁ l₂ : List ChunkResult}
    (hp : List.Perm l₁ l₂)
    (h₁ : List.Pairwise (fun a b => keyOf a ≤ keyOf b) l₁)
    (h₂ : List.Pairwise (fun a b => keyOf a < keyOf b) l₂) : l₁ = l₂ := by
  have hnd₂ : List.Pairwise (fun a b => keyOf a ≠ keyOf b) l₂ :=
    h₂.imp (fun h => ne_of_lt h)
  have hnd₁ : List.Pairwise (fun a b => keyOf a ≠ keyOf b) l₁ := by
    have : (l₂.map keyOf).Nodup := List.pairwise_map.mpr hnd₂
    have : (l₁.map keyOf).Nodup := ((hp.map keyOf).nodup_iff).mpr this
    exact List.pairwise_map.mp this
  have h₁' : List.Pairwise (fun a b => keyOf a < keyOf b) l₁ :=
    (h₁.and hnd₁).imp (fun h => lt_of_le_of_ne h.1 h.2)
  haveI : IsAntisymm ChunkResult (fun a b => keyOf a < keyOf b) :=
    ⟨fun a b hab hba => absurd (hab.trans hba) (lt_irrefl _)⟩
  exact List.eq_of_perm_of_sorted hp h₁' h₂

/-- `sortChunks` of any permutation of a strictly `keyOf`-sorted list `l`
recovers `l` itself. -/
lemma sortChunks_eq_of_perm {l lc : List ChunkResult}
    (hperm : List.Perm lc l)
    (hsorted : List.Pairwise (fun a b => keyOf a < keyOf b) l) :
    sortChunks lc = l := by
  haveI : IsTotal ChunkResult (fun a b => keyOf a ≤ keyOf b) :=
    ⟨fun a b => Int.le_total _ _⟩
  haveI : IsTrans ChunkResult (fun a b => keyOf a ≤ keyOf b) :=
    ⟨fun _ _ _ hab hbc => le_trans hab hbc⟩
  exact sorted_eq_of_perm_of_strict
    ((List.perm_insertionSort _ lc).trans hperm)
    (List.sorted_insertionSort _ lc) hsorted

/-- C1.  For every collection of at least one `ChunkResult` whose chunk
ids carry pairwise-distinct parseable indices, the Transcript Assembler's
output is the single-space join of the truthy (non-null, non-empty)
transcripts in ascending index order — stated as: assembling any
permutation `lc` of the ascending-order arrangement `l` yields the join
over `l`, so the collection order of the `ChunkResult`s is irrelevant. -/
theorem assembler_joins_in_ascending_index_order
    (l lc : List ChunkResult)
    (_hne : l ≠ [])
    (hparse : ∀ c ∈ l, (sortKey? c.chunk_id).isSome = true)
    (hsorted : List.Pairwise (fun a b => keyOf a < keyOf b) l)
    (hperm : List.Perm lc l) :
    assembleTranscript lc
      = Except.ok (String.intercalate " " (l.filterMap keptTranscript)) := by
  have hall : lc.all (fun c => (sortKey? c.chunk_id).isSome) = true :=
    List.all_eq_true.mpr (fun c hc => hparse c (hperm.subset hc))
  rw [assembleTranscript, if_pos hall, sortChunks_eq_of_perm hperm hsorted]

/-- Witness for C1: two chunks collected in reverse order still assemble
in ascending chunk-index order. -/
theorem assembler_joins_in_ascending_index_order_witness :
    assembleTranscript
      [⟨"v_chunk_1", "v_chunk_1.wav", some "world", none⟩,
       ⟨"v_chunk_0", "v_chunk_0.wav", some "hello", none⟩]
      = Except.ok "hello world" :=
  assembler_joins_in_ascending_index_order
    [⟨"v_chunk_0", "v_chunk_0.wav", some "hello", none⟩,
     ⟨"v_chunk_1", "v_chunk_1.wav", some "world", none⟩]
    [⟨"v_chunk_1", "v_chunk_1.wav", some "world", none⟩,
     ⟨"v_chunk_0", "v_chunk_0.wav", some "hello", none⟩]
    (by decide) (by decide) (by decide) (by decide)

/-- C2.  When every collected `ChunkResult` has a null or empty
transcript (and the chunk ids are the parseable ones the pipeline
generates), the pipeline tail returns the no-transcript error of line 327
and issues no chat-completion request. -/
theorem all_null_transcripts_yield_no_transcript_error {J : Type}
    (results : List ChunkResult) (env : Option String)
    (chat : ChatOutcome) (parse : String → Option J)
    (hparse : ∀ c ∈ results, (sortKey? c.chunk_id).isSome = true)
    (hnull : ∀ c ∈ results, c.transcript = none ∨ c.transcript = some "") :
    pipelineTail results env chat parse
      = ⟨PipeResult.err "No transcript was generated from any audio chunk", 0, []⟩ := by
  have hall : results.all (fun c => (sortKey? c.chunk_id).isSome) = true :=
    List.all_eq_true.mpr hparse
  have hkept : ∀ c ∈ sortChunks results, keptTranscript c = none := by
    intro c hc
    have hcm : c ∈ results := (List.perm_insertionSort _ results).subset hc
    rcases hnull c hcm with h | h <;> simp [keptTranscript, h]
  have hfm : (sortChunks results).filterMap keptTranscript = [] :=
    List.filterMap_eq_nil_iff.mpr hkept
  have hassemble : assembleTranscript results = Except.ok "" := by
    rw [assembleTranscript, if_pos hall, hfm]; rfl
  have hmerge : mergeStep results
      = Except.error "No transcript was generated from any audio chunk" := by
    rw [mergeStep, hassemble]; rfl
  rw [pipelineTail.eq_def, hmerge]

/-- Witness for C2: one chunk that failed with an error and produced no
transcript; the pipeline reports the terminal failure with zero
chat-completion requests. -/
theorem all_null_transcripts_yield_no_transcript_error_witness :
    pipelineTail [⟨"v_chunk_0", "v_chunk_0.wav", none, some "credential error"⟩]
        (some "key") (ChatOutcome.respond "x") (fun _ => some ())
      = ⟨PipeResult.err "No transcript was generated from any audio chunk", 0, []⟩ :=
  all_null_transcripts_yield_no_transcript_error
    [⟨"v_chunk_0", "v_chunk_0.wav", none, some "credential error"⟩]
    (some "key") (ChatOutcome.respond "x") (fun _ => some ())
    (by decide) (by decide)

/-- C6.  Whenever the chat-completion block succeeds but its text content
is not valid JSON, the pipeline returns the parse-failure dict of line
425, carrying the error tag and the raw model output unmodified, and no
summary. -/
theorem malformed_summary_json_yields_parse_error {J : Type}
    (results : List ChunkResult) (k content t : String)
    (parse : String → Option J)
    (hmerge : mergeStep results = Except.ok t)
    (hbad : parse content = none) :
    pipelineTail results (some k) (ChatOutcome.respond content) parse
      = ⟨PipeResult.parseErr "Failed to parse JSON summary" content, 1, []⟩ := by
  rw [pipelineTail.eq_def, hmerge]
  simp [hbad]

/-- Witness for C6: a response body that fails to parse is returned raw
inside the parse-failure result. -/
theorem malformed_summary_json_yields_parse_error_witness :
    pipelineTail [⟨"v_chunk_0", "v_chunk_0.wav", some "hi", none⟩]
        (some "key") (ChatOutcome.respond "not json") (fun _ => (none : Option Unit))
      = ⟨PipeResult.parseErr "Failed to parse JSON summary" "not json", 1, []⟩ :=
  malformed_summary_json_yields_parse_error
    [⟨"v_chunk_0", "v_chunk_0.wav", some "hi", none⟩]
    "key" "not json" "hi" (fun _ => (none : Option Unit)) rfl rfl

/-- Counterexample to C7 as stated: on the summary-parse-failure exit
path the call returns with an empty cleanup trace — neither the chunks
directory, nor the canonical audio file, nor the temp directory is
removed, though the claim requires removal on every exit path. -/
theorem no_cleanup_on_error_path_counterexample :
    pipelineTail [⟨"v_chunk_0", "v_chunk_0.wav", some "hi", none⟩]
        (some "key") (ChatOutcome.respond "not json") (fun _ => (none : Option Unit))
      = ⟨PipeResult.parseErr "Failed to parse JSON summary" "not json", 1, []⟩ := rfl

/-- C7 amended.  Cleanup is attempted only on the success path — after a
successfully parsed summary the pipeline attempts (best-effort) removal
of the chunks directory and the canonical audio file — every error path
attempts none, and no path ever removes the temp directory itself. -/
theorem cleanup_only_on_success_path {J : Type}
    (results : List ChunkResult) (env : Option String)
    (chat : ChatOutcome) (parse : String → Option J) :
    ((pipelineTail results env chat parse).cleanup
      = match (pipelineTail results env chat parse).result with
        | PipeResult.summary _ => [CleanupEvent.rmtreeChunks, CleanupEvent.removeAudio]
        | _ => [])
    ∧ CleanupEvent.rmtreeTempDir ∉ (pipelineTail results env chat parse).cleanup := by
  cases hm : mergeStep results with
  | error e => simp [pipelineTail, hm]
  | ok t =>
    cases env with
    | none => simp [pipelineTail, hm]
    | some k =>
      cases chat with
      | raise m => simp [pipelineTail, hm]
      | respond content =>
        cases hp : parse content with
        | none => simp [pipelineTail, hm, hp]
        | some j => simp [pipelineTail, hm, hp]

/-- Counterexample to C9 as stated: the entry point takes no credential
argument — both call sites read `OPENAI_API_KEY` from the process
environment (lines 286, 346) — so two invocations with identical explicit
arguments behave differently under different ambient environments. -/
theorem ambient_credential_changes_behavior_counterexample :
    pipelineTail [⟨"v_chunk_0", "v_chunk_0.wav", some "hi", none⟩]
        (some "key") (ChatOutcome.respond "x") (fun _ => some ())
      ≠ pipelineTail [⟨"v_chunk_0", "v_chunk_0.wav", some "hi", none⟩]
        none (ChatOutcome.respond "x") (fun _ => some ()) := by decide

/-- C9 amended.  The core consults the ambient environment, not an
explicit `credential` argument: with no `OPENAI_API_KEY` in the
environment the summarization step fails before any chat request, and the
per-chunk transcription call returns the missing-key error dict. -/
theorem credential_read_from_ambient_environment {J : Type}
    (results : List ChunkResult) (chat : ChatOutcome) (parse : String → Option J)
    (t : String) (hmerge : mergeStep results = Except.ok t) :
    pipelineTail results none chat parse
      = ⟨PipeResult.err "OpenAI API key not found in environment variables", 0, []⟩
    ∧ ∀ post, transcribe_with_openai_whisper none post
      = Except.ok ({ error := some "OpenAI API key not found in environment variables",
                     text := none }, "") := by
  refine ⟨?_, fun post => rfl⟩
  rw [pipelineTail.eq_def, hmerge]

/-- Witness for the amended C9: a pipeline whose merge succeeded still
fails without the ambient credential, issuing no chat request. -/
theorem credential_read_from_ambient_environment_witness :
    pipelineTail [⟨"v_chunk_0", "v_chunk_0.wav", some "hi", none⟩]
        none (ChatOutcome.respond "x") (fun _ => some ())
      = ⟨PipeResult.err "OpenAI API key not found in environment variables", 0, []⟩ :=
  (credential_read_from_ambient_environment
    [⟨"v_chunk_0", "v_chunk_0.wav", some "hi", none⟩]
    (ChatOutcome.respond "x") (fun _ => some ()) "hi" rfl).1

/-- Counterexample to C10 as stated: for the base name `"a_chunk_5"`,
which contains `'_chunk_'`, the extracted segment between the first and
second delimiters is the digit string `"5"`, so `int` parses it — no
exception is raised and the call succeeds rather than returning a
transcript-merging failure. -/
theorem digit_segment_basename_merges_fine_counterexample :
    sortKey? (chunkIdOf "a_chunk_5" 0) = some 5
    ∧ mergeStep [⟨chunkIdOf "a_chunk_5" 0, "a_chunk_5_chunk_0.wav", some "hello", none⟩]
      = Except.ok "hello" :=
  ⟨by decide, rfl⟩

/-- C10 amended.  When some collected chunk id's segment after the first
`'_chunk_'` delimiter is not a valid integer literal (as happens for a
base name such as `"my_chunk_video"`, whose segment is `"video"`), the
index extraction raises and the whole call returns the transcript-merging
failure, even when every chunk was transcribed successfully; a base name
whose segment is itself an integer (such as `"a_chunk_5"`) parses without
error. -/
theorem unparseable_chunk_id_fails_merge
    (results : List ChunkResult)
    (hbad : ∃ c ∈ results, sortKey? c.chunk_id = none)
    (_hok : ∀ c ∈ results, c.error = none ∧ ∃ t, c.transcript = some t ∧ t ≠ "") :
    mergeStep results = Except.error "Transcript merging failed: invalid chunk id" := by
  obtain ⟨c, hc, hkey⟩ := hbad
  have hfalse : ¬ (results.all (fun c => (sortKey? c.chunk_id).isSome) = true) := by
    intro h
    have := List.all_eq_true.mp h c hc
    rw [hkey] at this
    simp at this
  have ha : assembleTranscript results
      = Except.error "Transcript merging failed: invalid chunk id" := by
    rw [assembleTranscript, if_neg hfalse]
  rw [mergeStep, ha]

/-- Witness for the amended C10: the base name `"my_chunk_video"`
contains `'_chunk_'`, its extraction segment `"video"` fails to parse,
and the merge step fails although the chunk transcribed successfully. -/
theorem unparseable_chunk_id_fails_merge_witness :
    mergeStep [⟨chunkIdOf "my_chunk_video" 0, "my_chunk_video_chunk_0.wav", some "hello", none⟩]
      = Except.error "Transcript merging failed: invalid chunk id" :=
  unparseable_chunk_id_fails_merge
    [⟨chunkIdOf "my_chunk_video" 0, "my_chunk_video_chunk_0.wav", some "hello", none⟩]
    (by decide)
    (fun c hc => by
      rcases List.mem_singleton.mp hc with rfl
      exact ⟨rfl, "hello", rfl, by decide⟩)

/-- Counterexample to C5 as stated: with no service credential in the
environment, the Transcription Client returns `{'transcript': ''}` —
line 288's error dict is discarded into `response_list` (line 273) and
never copied into the returned content — so the chunk's `ChunkResult`
carries no error field, contradicting "an error field on any failure". -/
theorem missing_credential_yields_empty_transcript_counterexample :
    (mkChunkResult "v_chunk_0" "v_chunk_0.wav"
      (audio_to_text_single_call none 1000 1000
        (fun _ => PostOutcome.respond ⟨none, some "ignored"⟩)).content).error = none
    ∧ (mkChunkResult "v_chunk_0" "v_chunk_0.wav"
      (audio_to_text_single_call none 1000 1000
        (fun _ => PostOutcome.respond ⟨none, some "ignored"⟩)).content).transcript
      = some "" :=
  ⟨rfl, rfl⟩

/-- C8.  The chat payload's user message embeds the assembled transcript
verbatim and unmodified inside the fixed instruction template: the
message content is the template text, then the transcript character for
character, then a newline. -/
theorem summarizer_embeds_transcript_verbatim (fullTranscript : String) :
    ∃ pre post,
      ((chatPayload fullTranscript).messages.getD 1 ⟨"", ""⟩).content
        = pre ++ fullTranscript ++ post :=
  ⟨userPromptPre, "\n", rfl⟩

/-- Dividing `k * a + r` by `k * b` ignores a remainder `r < k`. -/
lemma mul_add_small_div (k b a r : Nat) (hb : 0 < b) (hr : r < k) :
    (k * a + r) / (k * b) = a / b := by
  have hk : 0 < k := by omega
  have hkb : 0 < k * b := Nat.mul_pos hk hb
  have ha : a = b * (a / b) + a % b := (Nat.div_add_mod a b).symm
  have hs : a % b < b := Nat.mod_lt _ hb
  have key : k * a + r = (k * (a % b) + r) + (k * b) * (a / b) := by
    calc k * a + r = k * (b * (a / b) + a % b) + r := by rw [← ha]
    _ = (k * (a % b) + r) + (k * b) * (a / b) := by ring
  have hlt : k * (a % b) + r < k * b := by
    calc k * (a % b) + r < k * (a % b) + k := by omega
    _ = k * (a % b + 1) := by ring
    _ ≤ k * b := Nat.mul_le_mul_left k hs
  rw [key, Nat.add_mul_div_left _ _ hkb, Nat.div_eq_of_lt hlt, Nat.zero_add]

/-- The chunk count computed in milliseconds equals the count in seconds. -/
lemma thousand_count (C L : Nat) (hL : 0 < L) :
    (1000 * C + L * 1000 - 1) / (L * 1000) = (C + L - 1) / L := by
  have h1 : 1000 * C + L * 1000 - 1 = 1000 * (C + L - 1) + 999 := by omega
  rw [h1, Nat.mul_comm L 1000, mul_add_small_div 1000 L (C + L - 1) 999 hL (by omega)]

/-- The ceiling-style chunk count `(C + L - 1) / L` brackets `C`. -/
lemma ceil_div_bounds (C L : Nat) (hC : 0 < C) (hL : 0 < L) :
    0 < (C + L - 1) / L
    ∧ ((C + L - 1) / L - 1) * L < C
    ∧ C ≤ ((C + L - 1) / L) * L := by
  have h0 : C + L - 1 = (C - 1) + L := by omega
  have h2 : (C + L - 1) / L = (C - 1) / L + 1 := by rw [h0, Nat.add_div_right _ hL]
  have h3 : C - 1 = L * ((C - 1) / L) + (C - 1) % L := (Nat.div_add_mod _ _).symm
  have h4 : (C - 1) % L < L := Nat.mod_lt _ hL
  have hswap : L * ((C - 1) / L) = ((C - 1) / L) * L := Nat.mul_comm _ _
  rw [hswap] at h3
  refine ⟨?_, ?_, ?_⟩
  · rw [h2]
    exact Nat.succ_pos _
  · rw [h2, Nat.add_sub_cancel]
    omega
  · rw [h2, Nat.succ_mul]
    omega

/-- Element lookup in the splitter's output list. -/
lemma splitAudioChunks_getD (name : String) (lenMs L i : Nat) (d : AudioChunk)
    (h : i < (lenMs + L * 1000 - 1) / (L * 1000)) :
    (splitAudioChunks name lenMs L).getD i d
      = { index := i, fileName := chunkFileName name i,
          durationMs := min (L * 1000) (lenMs - i * (L * 1000)) } := by
  simp [splitAudioChunks, List.getD_eq_getElem?_getD, List.getElem?_map,
    List.getElem?_range, h]

/-- C3.  Splitting a `C`-second audio stream with `chunk_length_sec = L > 0`
produces exactly `⌈C / L⌉ = (C + L - 1) / L` chunks, indexed densely from 0
in cut order, each lasting `L` seconds except possibly the last, which
lasts `C mod L` seconds (`L` when `L` divides `C`); zero-length audio
produces zero chunks and fails with the empty-audio error of line 214. -/
theorem splitter_produces_ceil_chunks (name : String) (C L : Nat) (hL : 0 < L) :
    (0 < C →
      splitAudioStep name (1000 * C) L = Except.ok (splitAudioChunks name (1000 * C) L)
      ∧ (splitAudioChunks name (1000 * C) L).length = (C + L - 1) / L
      ∧ (splitAudioChunks name (1000 * C) L).map AudioChunk.index
          = List.range ((C + L - 1) / L)
      ∧ (∀ i, i + 1 < (C + L - 1) / L →
          ((splitAudioChunks name (1000 * C) L).getD i ⟨0, "", 0⟩).durationMs = 1000 * L)
      ∧ ((splitAudioChunks name (1000 * C) L).getD ((C + L - 1) / L - 1) ⟨0, "", 0⟩).durationMs
          = if C % L = 0 then 1000 * L else 1000 * (C % L))
    ∧ (C = 0 →
      splitAudioStep name (1000 * C) L = Except.error "Failed to split audio into chunks") := by
  have hcount : (1000 * C + L * 1000 - 1) / (L * 1000) = (C + L - 1) / L :=
    thousand_count C L hL
  constructor
  · intro hC
    obtain ⟨hn0, hlow, hhigh⟩ := ceil_div_bounds C L hC hL
    have hlen : (splitAudioChunks name (1000 * C) L).length = (C + L - 1) / L := by
      simp [splitAudioChunks]
      exact hcount
    refine ⟨?_, hlen, ?_, ?_, ?_⟩
    · have hne : ¬ ((splitAudioChunks name (1000 * C) L).isEmpty = true) := by
        simp only [List.isEmpty_eq_true]
        exact List.ne_nil_of_length_pos (by omega)
      rw [splitAudioStep, if_neg hne]
    · simp [splitAudioChunks, List.map_map, Function.comp_def, hcount]
    · intro i hi
      have hiC : (i + 1) * L < C := by
        have h1 : (i + 1) * L ≤ ((C + L - 1) / L - 1) * L :=
          Nat.mul_le_mul_right L (by omega)
        omega
      have hi' : i < (1000 * C + L * 1000 - 1) / (L * 1000) := by omega
      rw [splitAudioChunks_getD name (1000 * C) L i _ hi']
      have hle : L * 1000 + i * (L * 1000) ≤ 1000 * C := by
        have h5 : (i + 1) * L * 1000 ≤ C * 1000 :=
          Nat.mul_le_mul_right 1000 (le_of_lt hiC)
        calc L * 1000 + i * (L * 1000) = (i + 1) * L * 1000 := by ring
        _ ≤ C * 1000 := h5
        _ = 1000 * C := by ring
      show min (L * 1000) (1000 * C - i * (L * 1000)) = 1000 * L
      rw [Nat.min_eq_left (Nat.le_sub_of_add_le hle), Nat.mul_comm]
    · have hi' : (C + L - 1) / L - 1 < (1000 * C + L * 1000 - 1) / (L * 1000) := by omega
      rw [splitAudioChunks_getD name (1000 * C) L _ _ hi']
      show min (L * 1000) (1000 * C - ((C + L - 1) / L - 1) * (L * 1000))
        = if C % L = 0 then 1000 * L else 1000 * (C % L)
      have hPform : ((C + L - 1) / L - 1) * (L * 1000) = (((C + L - 1) / L - 1) * L) * 1000 := by
        ring
      have hnlP : ((C + L - 1) / L) * L = ((C + L - 1) / L - 1) * L + L := by
        have : (C + L - 1) / L = ((C + L - 1) / L - 1) + 1 := by omega
        calc ((C + L - 1) / L) * L = (((C + L - 1) / L - 1) + 1) * L := by rw [← this]
        _ = ((C + L - 1) / L - 1) * L + L := by ring
      have hrem1 : 1 ≤ C - ((C + L - 1) / L - 1) * L := by omega
      have hremL : C - ((C + L - 1) / L - 1) * L ≤ L := by omega
      have hsub : 1000 * C - ((C + L - 1) / L - 1) * (L * 1000)
          = (C - ((C + L - 1) / L - 1) * L) * 1000 := by
        rw [hPform]
        omega
      rw [hsub, Nat.min_eq_right (Nat.mul_le_mul_right 1000 hremL)]
      have hmod : C % L = (C - ((C + L - 1) / L - 1) * L) % L := by
        have hCP : C = (C - ((C + L - 1) / L - 1) * L) + ((C + L - 1) / L - 1) * L := by
          omega
        calc C % L
            = ((C - ((C + L - 1) / L - 1) * L) + ((C + L - 1) / L - 1) * L) % L := by
              rw [← hCP]
        _ = (C - ((C + L - 1) / L - 1) * L) % L := Nat.add_mul_mod_self_right _ _ _
      rcases Nat.lt_or_ge (C - ((C + L - 1) / L - 1) * L) L with hlt | hge
      · have hmod' : C % L = C - ((C + L - 1) / L - 1) * L := by
          rw [hmod, Nat.mod_eq_of_lt hlt]
        rw [if_neg (by omega), hmod']
        ring
      · have heq : C - ((C + L - 1) / L - 1) * L = L := by omega
        rw [heq, hmod, heq, Nat.mod_self, if_pos rfl]
        ring
  · intro hC0
    subst hC0
    have hzero : (L * 1000 - 1) / (L * 1000) = 0 := by
      apply Nat.div_eq_of_lt
      have h1000 : 1000 ≤ L * 1000 := Nat.le_mul_of_pos_left 1000 hL
      omega
    have hempty : splitAudioChunks name (1000 * 0) L = [] := by
      simp [splitAudioChunks, hzero]
    rw [splitAudioStep, hempty]
    rfl

/-- Witness for C3, the spec's end-to-end scenario: 150 seconds of audio
with 60-second chunks gives 3 chunks of durations 60 s, 60 s, 30 s. -/
theorem splitter_produces_ceil_chunks_witness :
    (0 < 150 →
      splitAudioStep "video" (1000 * 150) 60
        = Except.ok (splitAudioChunks "video" (1000 * 150) 60)
      ∧ (splitAudioChunks "video" (1000 * 150) 60).length = (150 + 60 - 1) / 60
      ∧ (splitAudioChunks "video" (1000 * 150) 60).map AudioChunk.index
          = List.range ((150 + 60 - 1) / 60)
      ∧ (∀ i, i + 1 < (150 + 60 - 1) / 60 →
          ((splitAudioChunks "video" (1000 * 150) 60).getD i ⟨0, "", 0⟩).durationMs = 1000 * 60)
      ∧ ((splitAudioChunks "video" (1000 * 150) 60).getD ((150 + 60 - 1) / 60 - 1) ⟨0, "", 0⟩).durationMs
          = if 150 % 60 = 0 then 1000 * 60 else 1000 * (150 % 60))
    ∧ (150 = 0 →
      splitAudioStep "video" (1000 * 150) 60
        = Except.error "Failed to split audio into chunks") :=
  splitter_produces_ceil_chunks "video" 150 60 (by decide)

/-- `make_chunks`' count `ceil(len / chunk_duration_ms)` simplifies to
`ceil(raw_size / limit)`: the milliseconds cancel. -/
lemma numSubChunks_eq (rawSize lenMs : Nat) (hraw : 0 < rawSize) (hlen : 0 < lenMs) :
    numSubChunks rawSize lenMs = Nat.ceil ((rawSize : ℚ) / (uploadLimit : ℚ)) := by
  have hrawQ : (rawSize : ℚ) ≠ 0 := Nat.cast_ne_zero.mpr (by omega)
  have hlenQ : (lenMs : ℚ) ≠ 0 := Nat.cast_ne_zero.mpr (by omega)
  have hupQ : (uploadLimit : ℚ) ≠ 0 := by norm_num [uploadLimit]
  have hd : (lenMs : ℚ) / subChunkLen rawSize lenMs = (rawSize : ℚ) / (uploadLimit : ℚ) := by
    rw [subChunkLen]
    field_simp
    ring
  rw [numSubChunks, hd, Int.ceil_toNat]

/-- Unrolling the sub-split loop when every remaining transcription call
returns a text: the accumulator gathers `text + " "` per window and the
trace is export-transcribe-delete per window. -/
lemma subSplitLoop_ok (env : Option String) (post : Nat → PostOutcome)
    (texts : Nat → String) :
    ∀ (k i : Nat) (acc : String),
      (∀ j, j < k → ∃ r, transcribe_with_openai_whisper env (post (i + j))
        = Except.ok (r, texts (i + j))) →
      subSplitLoop env post i k acc
        = ⟨ChunkContent.transcript (concatFrom texts i k acc), eventsFrom i k⟩ := by
  intro k
  induction k with
  | zero => intro i acc _; rfl
  | succ n ih =>
    intro i acc h
    obtain ⟨r, hr⟩ := h 0 (Nat.succ_pos n)
    simp only [Nat.add_zero] at hr
    have hrest : ∀ j, j < n → ∃ r, transcribe_with_openai_whisper env (post (i + 1 + j))
        = Except.ok (r, texts (i + 1 + j)) := by
      intro j hj
      have hj1 : i + 1 + j = i + (j + 1) := by omega
      rw [hj1]
      exact h (j + 1) (by omega)
    simp only [subSplitLoop, hr]
    rw [ih (i + 1) (acc ++ texts i ++ " ") hrest]
    rfl

/-- C4 amended.  A chunk whose raw decoded size exceeds the 24 MiB limit
is sub-split into `⌈raw_size / limit⌉` windows of duration
`limit / bytes-per-millisecond` (except possibly the last) before
transcription; the windows are transcribed sequentially in order, each
window file is deleted immediately after its call completes, and the
transcript is the concatenation appending each window's text followed by
one space (so a trailing space remains after the final text, rather than
a pure single-space-separated join); a chunk at or under the limit is
transcribed in a single call. -/
theorem oversized_chunk_subsplit_behavior
    (rawSize lenMs : Nat) (env : Option String)
    (post : Nat → PostOutcome) (texts : Nat → String)
    (hbig : uploadLimit < rawSize) (hlen : 0 < lenMs)
    (hcalls : ∀ i, i < numSubChunks rawSize lenMs →
      ∃ r, transcribe_with_openai_whisper env (post i) = Except.ok (r, texts i)) :
    numSubChunks rawSize lenMs = Nat.ceil ((rawSize : ℚ) / (uploadLimit : ℚ))
    ∧ audio_to_text_single_call env rawSize lenMs post
        = ⟨ChunkContent.transcript (concatFrom texts 0 (numSubChunks rawSize lenMs) ""),
           eventsFrom 0 (numSubChunks rawSize lenMs)⟩
    ∧ (∀ i, i + 1 < numSubChunks rawSize lenMs →
        subWindowLen rawSize lenMs i = subChunkLen rawSize lenMs)
    ∧ (∀ raw2 : Nat, ∀ post2 : Nat → PostOutcome, raw2 ≤ uploadLimit →
        (audio_to_text_single_call env raw2 lenMs post2).events = [FileEvent.whisperCall 0]) := by
  have hraw : 0 < rawSize := by
    have : 0 < uploadLimit := by norm_num [uploadLimit]
    omega
  refine ⟨numSubChunks_eq rawSize lenMs hraw hlen, ?_, ?_, ?_⟩
  · rw [audio_to_text_single_call, if_pos hbig]
    apply subSplitLoop_ok
    intro j hj
    simp only [Nat.zero_add]
    exact hcalls j hj
  · intro i hi
    have hdpos : 0 < subChunkLen rawSize lenMs := by
      rw [subChunkLen]
      apply div_pos (by norm_num [uploadLimit])
      apply div_pos
      · exact_mod_cast hraw
      · exact_mod_cast hlen
    have hceil : ((i : ℤ) + 1) < Int.ceil ((lenMs : ℚ) / subChunkLen rawSize lenMs) := by
      have h1 : (i + 1 : Nat) < (Int.ceil ((lenMs : ℚ) / subChunkLen rawSize lenMs)).toNat := hi
      have h2 := Int.lt_toNat.mp h1
      exact_mod_cast h2
    have hlt : ((i : ℚ) + 1) * subChunkLen rawSize lenMs < (lenMs : ℚ) := by
      have h3 : ((i : ℚ) + 1) < (lenMs : ℚ) / subChunkLen rawSize lenMs := by
        have := Int.lt_ceil.mp hceil
        push_cast at this ⊢
        exact this
      exact (lt_div_iff₀ hdpos).mp h3
    have hle : (i : ℚ) * subChunkLen rawSize lenMs
        < ((i : ℚ) + 1) * subChunkLen rawSize lenMs := by
      have : (i : ℚ) < (i : ℚ) + 1 := by linarith
      exact mul_lt_mul_of_pos_right this hdpos
    rw [subWindowLen, min_eq_left (le_of_lt hlt), min_eq_left (by linarith)]
    ring
  · intro raw2 post2 h2
    rw [audio_to_text_single_call, if_neg (not_lt.mpr h2)]
    cases transcribe_with_openai_whisper env (post2 0) with
    | error e => rfl
    | ok p => rfl

/-- Witness for the amended C4: a 48 MiB, 1-second chunk is sub-split and
its windows transcribed sequentially with the window files deleted. -/
theorem oversized_chunk_subsplit_behavior_witness :
    numSubChunks 50331648 1000 = Nat.ceil ((50331648 : ℚ) / (uploadLimit : ℚ))
    ∧ audio_to_text_single_call (some "key") 50331648 1000
        (fun _ => PostOutcome.respond ⟨none, some "a"⟩)
        = ⟨ChunkContent.transcript
            (concatFrom (fun _ => "a") 0 (numSubChunks 50331648 1000) ""),
           eventsFrom 0 (numSubChunks 50331648 1000)⟩
    ∧ (∀ i, i + 1 < numSubChunks 50331648 1000 →
        subWindowLen 50331648 1000 i = subChunkLen 50331648 1000)
    ∧ (∀ raw2 : Nat, ∀ post2 : Nat → PostOutcome, raw2 ≤ uploadLimit →
        (audio_to_text_single_call (some "key") raw2 1000 post2).events
          = [FileEvent.whisperCall 0]) :=
  oversized_chunk_subsplit_behavior 50331648 1000 (some "key")
    (fun _ => PostOutcome.respond ⟨none, some "a"⟩) (fun _ => "a")
    (by norm_num [uploadLimit]) (by decide)
    (fun i _ => ⟨⟨none, some "a"⟩, rfl⟩)

/-- Counterexample to C4 as stated: for an oversized chunk whose two
sub-windows transcribe to `"a"` and `"b"`, the client's transcript is
`"a b "` — each text is followed by a space (line 267), leaving a
trailing space — not the single-space-separated join `"a b"`. -/
theorem oversized_chunk_trailing_space_counterexample :
    (audio_to_text_single_call (some "key") (2 * uploadLimit) 1000
      (fun i => PostOutcome.respond ⟨none, some (if i = 0 then "a" else "b")⟩)).content
      = ChunkContent.transcript "a b "
    ∧ ("a b " : String) ≠ "a b" := by
  have hn : numSubChunks (2 * uploadLimit) 1000 = 2 := by
    rw [numSubChunks_eq (2 * uploadLimit) 1000 (by norm_num [uploadLimit]) (by decide)]
    have h2 : ((2 * uploadLimit : Nat) : ℚ) / (uploadLimit : ℚ) = 2 := by
      have hne0 : (uploadLimit : ℚ) ≠ 0 := by norm_num [uploadLimit]
      push_cast
      rw [mul_div_assoc, div_self hne0, mul_one]
    rw [h2]
    norm_num
  constructor
  · rw [audio_to_text_single_call,
      if_pos (by norm_num [uploadLimit] : uploadLimit < 2 * uploadLimit), hn]
    rfl
  · decide

/-- The sub-split accumulator over `k` windows of empty text is `k`
characters long: one appended space per window. -/
lemma concatFrom_empty_length :
    ∀ (k i : Nat) (acc : String),
      (concatFrom (fun _ => "") i k acc).length = acc.length + k := by
  intro k
  induction k with
  | zero => intro i acc; rfl
  | succ n ih =>
    intro i acc
    show (concatFrom (fun _ => "") (i + 1) n (acc ++ "" ++ " ")).length = acc.length + (n + 1)
    have hsp : (" " : String).length = 1 := rfl
    have hem : ("" : String).length = 0 := rfl
    rw [ih, String.length_append, String.length_append, hsp, hem]
    omega

/-- C5 amended.  The Transcription Client never raises past its boundary,
and only an exception inside the call (e.g. network failure) surfaces in
the error field.  A service-reported failure — missing credential or HTTP
error body — never sets an error field: a chunk at or under the upload
limit returns the empty transcript `''` in one call, while an oversized
chunk accumulates one appended space per failed sub-window, so with a
missing credential its transcript is a non-empty all-whitespace string of
one space per sub-window. -/
theorem client_error_surfacing_behavior
    (rawSize lenMs : Nat) (k msg t e : String) (r : WhisperResp)
    (hlen : 0 < lenMs) :
    (∀ post : Nat → PostOutcome, rawSize ≤ uploadLimit → post 0 = PostOutcome.raise msg →
      audio_to_text_single_call (some k) rawSize lenMs post
        = ⟨ChunkContent.error msg, [FileEvent.whisperCall 0]⟩)
    ∧ (∀ post : Nat → PostOutcome, rawSize ≤ uploadLimit →
      audio_to_text_single_call none rawSize lenMs post
        = ⟨ChunkContent.transcript "", [FileEvent.whisperCall 0]⟩)
    ∧ (∀ post : Nat → PostOutcome, rawSize ≤ uploadLimit →
      post 0 = PostOutcome.respond r → r.error = some e →
      audio_to_text_single_call (some k) rawSize lenMs post
        = ⟨ChunkContent.transcript "", [FileEvent.whisperCall 0]⟩)
    ∧ (∀ post : Nat → PostOutcome, rawSize ≤ uploadLimit →
      post 0 = PostOutcome.respond ⟨none, some t⟩ →
      audio_to_text_single_call (some k) rawSize lenMs post
        = ⟨ChunkContent.transcript t, [FileEvent.whisperCall 0]⟩)
    ∧ (∀ post : Nat → PostOutcome, uploadLimit < rawSize →
      audio_to_text_single_call none rawSize lenMs post
        = ⟨ChunkContent.transcript
            (concatFrom (fun _ => "") 0 (numSubChunks rawSize lenMs) ""),
           eventsFrom 0 (numSubChunks rawSize lenMs)⟩
      ∧ (concatFrom (fun _ => "") 0 (numSubChunks rawSize lenMs) "").length
          = numSubChunks rawSize lenMs
      ∧ 0 < numSubChunks rawSize lenMs) := by
  refine ⟨?_, ?_, ?_, ?_, ?_⟩
  · intro post hsm hp
    rw [audio_to_text_single_call, if_neg (not_lt.mpr hsm), hp]
    rfl
  · intro post hsm
    rw [audio_to_text_single_call, if_neg (not_lt.mpr hsm)]
    rfl
  · intro post hsm hp he
    rw [audio_to_text_single_call, if_neg (not_lt.mpr hsm), hp]
    simp [transcribe_with_openai_whisper, he]
  · intro post hsm hp
    rw [audio_to_text_single_call, if_neg (not_lt.mpr hsm), hp]
    rfl
  · intro post hbig
    have hraw : 0 < rawSize := by
      have : 0 < uploadLimit := by norm_num [uploadLimit]
      omega
    refine ⟨?_, ?_, ?_⟩
    · rw [audio_to_text_single_call, if_pos hbig]
      apply subSplitLoop_ok none post (fun _ => "")
      intro j _
      exact ⟨{ error := some "OpenAI API key not found in environment variables",
               text := none }, rfl⟩
    · have hcl := concatFrom_empty_length (numSubChunks rawSize lenMs) 0 ""
      have hem : ("" : String).length = 0 := rfl
      omega
    · rw [numSubChunks_eq rawSize lenMs hraw hlen]
      apply Nat.ceil_pos.mpr
      apply div_pos
      · exact_mod_cast hraw
      · norm_num [uploadLimit]

/-- Witness for the amended C5: a raised network error on a small chunk
comes back in the error field after one call, and an oversized chunk with
no credential in the environment comes back as a non-empty all-whitespace
transcript, one space per sub-window, with no error field. -/
theorem client_error_surfacing_behavior_witness :
    audio_to_text_single_call (some "key") 1000 1000
        (fun _ => PostOutcome.raise "network down")
      = ⟨ChunkContent.error "network down", [FileEvent.whisperCall 0]⟩
    ∧ (audio_to_text_single_call none (2 * uploadLimit) 1000
          (fun _ => PostOutcome.raise "unreached")
        = ⟨ChunkContent.transcript
            (concatFrom (fun _ => "") 0 (numSubChunks (2 * uploadLimit) 1000) ""),
           eventsFrom 0 (numSubChunks (2 * uploadLimit) 1000)⟩
      ∧ (concatFrom (fun _ => "") 0 (numSubChunks (2 * uploadLimit) 1000) "").length
          = numSubChunks (2 * uploadLimit) 1000
      ∧ 0 < numSubChunks (2 * uploadLimit) 1000) :=
  ⟨(client_error_surfacing_behavior 1000 1000 "key" "network down" "hi" "bad"
      ⟨some "bad", none⟩ (by decide)).1
      (fun _ => PostOutcome.raise "network down") (by decide) rfl,
   (client_error_surfacing_behavior (2 * uploadLimit) 1000 "key" "network down" "hi" "bad"
      ⟨some "bad", none⟩ (by decide)).2.2.2.2
      (fun _ => PostOutcome.raise "unreached") (by norm_num [uploadLimit])⟩
